import Mathlib

/-!
Shallow embedding of gst-libs/gst/vaapi/gstvaapisurface.c (gstreamer-vaapi).

The VA backend (libva) and the collaborator modules (display, image,
subpicture, buffer proxy, utils) are external to the translated file; their
behaviour is modelled by an explicit environment `Env` whose fields give the
status codes, identifiers and descriptor contents each backend call produces,
and every operation additionally returns the list of backend calls it issued
(`List Ev`), so that ordering and call-count properties can be stated.
-/

/-- VA_INVALID_ID sentinel (0xffffffff), as in va.h. -/
def VA_INVALID_ID : Nat := 0xffffffff

/-- VA_INVALID_SURFACE sentinel, equal to VA_INVALID_ID. -/
def VA_INVALID_SURFACE : Nat := VA_INVALID_ID

/-- VA_STATUS_SUCCESS (0), as in va.h. -/
def VA_STATUS_SUCCESS : Nat := 0

/-- GST_VIDEO_FORMAT_UNKNOWN (0), as in GStreamer's video-format enumeration. -/
def GST_VIDEO_FORMAT_UNKNOWN : Nat := 0

/-- Modelled from the spec: the three allocation flags of the explicit-format
strategy (linear storage preferred, fixed strides, fixed offsets) are distinct
bits of the flags word; the enumeration itself lives in gstvaapisurface.h,
which is not under src/. -/
def GST_VAAPI_SURFACE_ALLOC_FLAG_LINEAR_STORAGE : Nat := 1

/-- Second allocation-flag bit: per-plane strides are fixed by the caller. -/
def GST_VAAPI_SURFACE_ALLOC_FLAG_FIXED_STRIDES : Nat := 2

/-- Third allocation-flag bit: per-plane offsets are fixed by the caller. -/
def GST_VAAPI_SURFACE_ALLOC_FLAG_FIXED_OFFSETS : Nat := 4

/-- GstVaapiRectangle: position + size tuple. -/
structure GstVaapiRectangle where
  x : Nat
  y : Nat
  width : Nat
  height : Nat
deriving Repr, DecidableEq

/-- GstVaapiBufferProxy, reduced to the accessors the surface code consumes:
GST_VAAPI_BUFFER_PROXY_HANDLE, GST_VAAPI_BUFFER_PROXY_SIZE,
GST_VAAPI_BUFFER_PROXY_TYPE. -/
structure GstVaapiBufferProxy where
  handle : Nat
  size : Nat
  mem_type : Nat
deriving Repr, DecidableEq

/-- GstVideoInfo, reduced to the accessors the surface code consumes:
format, width, height, number of planes, per-plane stride and offset. -/
structure GstVideoInfo where
  format : Nat
  width : Nat
  height : Nat
  n_planes : Nat
  stride : Nat → Nat
  offset : Nat → Nat

/-- VASurfaceAttribExternalBuffers descriptor, as populated by the two
descriptor-using creation strategies. -/
structure VASurfaceAttribExternalBuffers where
  pixel_format : Nat
  width : Nat
  height : Nat
  data_size : Nat
  num_planes : Nat
  pitches : Nat → Nat
  offsets : Nat → Nat
  num_buffers : Nat
  flags : Nat

/-- GstVaapiImage, reduced to the accessors the surface code consumes:
GST_VAAPI_IMAGE_WIDTH, GST_VAAPI_IMAGE_HEIGHT and the backend image
identity GST_VAAPI_OBJECT_ID. -/
structure GstVaapiImage where
  width : Nat
  height : Nat
  image_id : Nat
deriving Repr, DecidableEq

/-- The GstVaapiSurface record: backend handle (GST_VAAPI_OBJECT_ID), whether
the owning display is non-NULL, the four metadata fields, the parent-context
back-reference, the overlay set (NULL or a pointer array of subpicture ids)
and the external-buffer-memory reference. -/
structure GstVaapiSurface where
  object_id : Nat
  display : Bool
  format : Nat
  chroma_type : Nat
  width : Nat
  height : Nat
  parent_context : Option Nat
  subpictures : Option (List Nat)
  extbuf_proxy : Option GstVaapiBufferProxy
deriving Repr, DecidableEq

/-- Observable events: the backend calls issued by the surface code (each
device-locked call appears between a lock and an unlock event), together with
the reference-count releases and the parent-context clearing performed during
teardown. -/
inductive Ev where
  | lock
  | unlock
  | vaCreateSurfaces
  | vaDestroySurfaces (id : Nat)
  | vaDeriveImage
  | vaDestroyImage (id : Nat)
  | vaGetImage (id : Nat)
  | vaPutImage (id : Nat)
  | vaAssociateSubpicture (sub : Nat) (src dst : GstVaapiRectangle)
  | vaDeassociateSubpicture (sub : Nat)
  | vaQuerySurfaceStatus
  | subUnref (sub : Nat)
  | proxyUnref (handle : Nat)
  | setParentContext
  | contextApplyComposition
deriving Repr, DecidableEq

/-- Environment: behaviour of the backend and of the external collaborator
modules (format-translation tables, subpicture accessors, image-wrapper
construction).  Status fields are the VAStatus codes the corresponding backend
calls return; outWidth/outHeight are the contents of the external-buffer
descriptor after a vaCreateSurfaces call that was handed a pointer to it. -/
structure Env where
  video_format_to_va_format : Nat → Option Nat
  video_format_get_chroma_type : Nat → Nat
  from_GstVaapiChromaType : Nat → Nat
  from_GstVaapiBufferMemoryType : Nat → Nat
  from_GstVaapiSubpictureFlags : Nat → Nat
  to_GstVaapiSurfaceStatus : Nat → Nat
  subpicture_get_image : Nat → Option (Nat × Nat)
  subpicture_get_flags : Nat → Nat
  subpicture_from_overlay_rectangle : Nat → Nat
  context_apply_composition_ok : Bool
  createStatus : Nat
  createId : Nat
  outWidth : Nat
  outHeight : Nat
  destroyStatus : Nat
  deriveStatus : Nat
  deriveImageId : Nat
  deriveBuf : Nat
  deriveWidth : Nat
  deriveHeight : Nat
  imageNewOk : Bool
  getImageStatus : Nat
  putImageStatus : Nat
  associateStatus : Nat
  deassociateStatus : Nat → Nat
  queryStatus : Nat
  rawSurfaceStatus : Nat

/-- Modelled from the spec: vaapi_check_status (gstvaapiutils.c, not under
src/) is the shared checker mapping a backend status code to boolean success;
it logs the operation name and succeeds exactly on the success code. -/
def vaapi_check_status (status : Nat) : Bool :=
  status == VA_STATUS_SUCCESS

/-- Modelled from the spec: gst_vaapi_buffer_proxy_replace (buffer-memory
collaborator, not under src/) stores the new reference and releases the
reference previously held, reporting the release of the old one. -/
def gst_vaapi_buffer_proxy_replace (old new : Option GstVaapiBufferProxy) :
    Option GstVaapiBufferProxy × List Ev :=
  (new, match old with
        | some p => [Ev.proxyUnref p.handle]
        | none => [])

/-- Result of an operation that can mutate the surface: C return value,
surface state after the call, trace of issued backend calls. -/
structure SRes where
  ok : Bool
  surface : GstVaapiSurface
  trace : List Ev
deriving Repr

/-- Result of an operation that leaves the surface unchanged. -/
structure BRes where
  ok : Bool
  trace : List Ev
deriving Repr

/-- gst_vaapi_surface_create: implicit-format creation strategy.  Negotiates
the chroma code, issues vaCreateSurfaces under the display lock, and on
success commits format (UNKNOWN), chroma type and the requested
width/height, storing the returned surface id. -/
def gst_vaapi_surface_create (env : Env) (surface : GstVaapiSurface)
    (chroma_type width height : Nat) : SRes :=
  let va_chroma_format := env.from_GstVaapiChromaType chroma_type
  if va_chroma_format = 0 then
    ⟨false, surface, []⟩
  else
    let tr := [Ev.lock, Ev.vaCreateSurfaces, Ev.unlock]
    if ¬ vaapi_check_status env.createStatus then
      ⟨false, surface, tr⟩
    else
      ⟨true,
        { surface with
            format := GST_VIDEO_FORMAT_UNKNOWN
            chroma_type := chroma_type
            width := width
            height := height
            object_id := env.createId }, tr⟩

/-- The external-buffer descriptor built by gst_vaapi_surface_create_full
before the backend call (memset to zero, then pixel format, dimensions,
plane count, and strides/offsets when the corresponding flags request a
fixed layout). -/
def create_full_extbuf (env : Env) (vip : GstVideoInfo) (flags : Nat) :
    VASurfaceAttribExternalBuffers :=
  let va_format := (env.video_format_to_va_format vip.format).getD 0
  { pixel_format := va_format
    width := vip.width
    height := vip.height
    data_size := 0
    num_planes := vip.n_planes
    pitches := fun i =>
      if flags &&& GST_VAAPI_SURFACE_ALLOC_FLAG_FIXED_STRIDES ≠ 0 ∧ i < vip.n_planes
      then vip.stride i else 0
    offsets := fun i =>
      if flags &&& GST_VAAPI_SURFACE_ALLOC_FLAG_FIXED_OFFSETS ≠ 0 ∧ i < vip.n_planes
      then vip.offset i else 0
    num_buffers := 0
    flags := 0 }

/-- Whether gst_vaapi_surface_create_full passes the external-buffer
descriptor (and the VA memory-type attribute) to the backend: true exactly
when one of the three allocation flags was given. -/
def create_full_extbuf_needed (flags : Nat) : Bool :=
  flags &&& GST_VAAPI_SURFACE_ALLOC_FLAG_LINEAR_STORAGE ≠ 0 ∨
  flags &&& GST_VAAPI_SURFACE_ALLOC_FLAG_FIXED_STRIDES ≠ 0 ∨
  flags &&& GST_VAAPI_SURFACE_ALLOC_FLAG_FIXED_OFFSETS ≠ 0

/-- Contents of the external-buffer descriptor after the vaCreateSurfaces
call of gst_vaapi_surface_create_full: the backend holds a pointer to the
descriptor exactly when it was passed as an attribute, and may then write
the granted dimensions into it. -/
def create_full_extbuf_out (env : Env) (vip : GstVideoInfo) (flags : Nat) :
    VASurfaceAttribExternalBuffers :=
  let extbuf := create_full_extbuf env vip flags
  if create_full_extbuf_needed flags then
    { extbuf with width := env.outWidth, height := env.outHeight }
  else
    extbuf

/-- gst_vaapi_surface_create_full: explicit-format creation strategy.
Negotiates format and chroma (failing fast), builds the attribute list and
the external-buffer descriptor, issues vaCreateSurfaces under the display
lock, and on success commits format, chroma type and the width/height read
back from the descriptor (extbuf.width/extbuf.height). -/
def gst_vaapi_surface_create_full (env : Env) (surface : GstVaapiSurface)
    (vip : GstVideoInfo) (flags : Nat) : SRes :=
  let format := vip.format
  match env.video_format_to_va_format format with
  | none => ⟨false, surface, []⟩
  | some _ =>
    let chroma_type := env.video_format_get_chroma_type format
    if chroma_type = 0 then ⟨false, surface, []⟩
    else
      let va_chroma_format := env.from_GstVaapiChromaType chroma_type
      if va_chroma_format = 0 then ⟨false, surface, []⟩
      else
        let extbuf := create_full_extbuf_out env vip flags
        let tr := [Ev.lock, Ev.vaCreateSurfaces, Ev.unlock]
        if ¬ vaapi_check_status env.createStatus then
          ⟨false, surface, tr⟩
        else
          ⟨true,
            { surface with
                format := format
                chroma_type := chroma_type
                width := extbuf.width
                height := extbuf.height
                object_id := env.createId }, tr⟩

/-- The external-buffer descriptor built by
gst_vaapi_surface_create_from_buffer_proxy before the backend call. -/
def create_from_buffer_proxy_extbuf (env : Env) (proxy : GstVaapiBufferProxy)
    (vip : GstVideoInfo) : VASurfaceAttribExternalBuffers :=
  let va_format := (env.video_format_to_va_format vip.format).getD 0
  { pixel_format := va_format
    width := vip.width
    height := vip.height
    data_size := proxy.size
    num_planes := vip.n_planes
    pitches := fun i => if i < vip.n_planes then vip.stride i else 0
    offsets := fun i => if i < vip.n_planes then vip.offset i else 0
    num_buffers := 1
    flags := 0 }

/-- Contents of the external-buffer descriptor after the vaCreateSurfaces
call of gst_vaapi_surface_create_from_buffer_proxy: the backend holds a
pointer to the descriptor and may write the granted dimensions into it. -/
def create_from_buffer_proxy_extbuf_out (env : Env)
    (proxy : GstVaapiBufferProxy) (vip : GstVideoInfo) :
    VASurfaceAttribExternalBuffers :=
  { create_from_buffer_proxy_extbuf env proxy vip with
      width := env.outWidth, height := env.outHeight }

/-- gst_vaapi_surface_create_from_buffer_proxy: external-buffer creation
strategy.  Replaces the owned extbuf_proxy reference first, then negotiates
format and chroma, builds the external-buffer descriptor and memory-type
attribute, issues vaCreateSurfaces under the display lock, and on success
commits format, chroma type and the local width/height variables. -/
def gst_vaapi_surface_create_from_buffer_proxy (env : Env)
    (surface : GstVaapiSurface) (proxy : GstVaapiBufferProxy)
    (vip : GstVideoInfo) : SRes :=
  let format := vip.format
  let width := vip.width
  let height := vip.height
  let pr := gst_vaapi_buffer_proxy_replace surface.extbuf_proxy (some proxy)
  let tr0 := pr.2
  let surface := { surface with extbuf_proxy := pr.1 }
  match env.video_format_to_va_format format with
  | none => ⟨false, surface, tr0⟩
  | some _ =>
    let chroma_type := env.video_format_get_chroma_type format
    if chroma_type = 0 then ⟨false, surface, tr0⟩
    else
      let va_chroma_format := env.from_GstVaapiChromaType chroma_type
      if va_chroma_format = 0 then ⟨false, surface, tr0⟩
      else
        let tr := tr0 ++ [Ev.lock, Ev.vaCreateSurfaces, Ev.unlock]
        if ¬ vaapi_check_status env.createStatus then
          ⟨false, surface, tr⟩
        else
          ⟨true,
            { surface with
                format := format
                chroma_type := chroma_type
                width := width
                height := height
                object_id := env.createId }, tr⟩

/-- g_ptr_array_remove_fast (GLib): removes the first occurrence of the given
element, filling its slot with the last element of the array (order is not
preserved); returns whether the element was found. -/
def g_ptr_array_remove_fast (l : List Nat) (x : Nat) : Bool × List Nat :=
  match l.findIdx? (fun y => y = x) with
  | none => (false, l)
  | some i => (true, (l.set i (l.getLast?.getD x)).dropLast)

/-- _gst_vaapi_surface_deassociate_subpicture: backend-level deassociation.
Checks the display and the surface handle, then issues
vaDeassociateSubpicture under the display lock. -/
def deassociate_subpicture_backend (env : Env) (surface : GstVaapiSurface)
    (subpicture : Nat) : BRes :=
  if ¬ surface.display then ⟨false, []⟩
  else if surface.object_id = VA_INVALID_SURFACE then ⟨false, []⟩
  else
    ⟨vaapi_check_status (env.deassociateStatus subpicture),
      [Ev.lock, Ev.vaDeassociateSubpicture subpicture, Ev.unlock]⟩

/-- _gst_vaapi_surface_associate_subpicture: backend-level association.
Checks the display and the surface handle, resolves the default source
rectangle (the subpicture's whole image, queried when src_rect is NULL) and
the default destination rectangle (the whole surface, when dst_rect is
NULL), then issues vaAssociateSubpicture under the display lock. -/
def associate_subpicture_backend (env : Env) (surface : GstVaapiSurface)
    (subpicture : Nat) (src_rect dst_rect : Option GstVaapiRectangle) : BRes :=
  if ¬ surface.display then ⟨false, []⟩
  else if surface.object_id = VA_INVALID_SURFACE then ⟨false, []⟩
  else
    let srcRes : Option GstVaapiRectangle :=
      match src_rect with
      | some r => some r
      | none =>
        match env.subpicture_get_image subpicture with
        | none => none
        | some (w, h) => some ⟨0, 0, w, h⟩
    match srcRes with
    | none => ⟨false, []⟩
    | some src =>
      let dst := dst_rect.getD ⟨0, 0, surface.width, surface.height⟩
      ⟨vaapi_check_status env.associateStatus,
        [Ev.lock, Ev.vaAssociateSubpicture subpicture src dst, Ev.unlock]⟩

/-- gst_vaapi_surface_associate_subpicture: creates the overlay set if
absent; if the subpicture is already a member, removes it and performs a
full backend deassociate + reference release (aborting on deassociation
failure); then performs the backend association and, on success, appends
the subpicture to the overlay set with a new reference. -/
def gst_vaapi_surface_associate_subpicture (env : Env)
    (surface0 : GstVaapiSurface) (subpicture : Nat)
    (src_rect dst_rect : Option GstVaapiRectangle) : SRes :=
  let surface :=
    match surface0.subpictures with
    | none => { surface0 with subpictures := some [] }
    | some _ => surface0
  let subs := surface.subpictures.getD []
  let rf := g_ptr_array_remove_fast subs subpicture
  let subs1 := rf.2
  let surface := { surface with subpictures := some subs1 }
  if rf.1 then
    let pre := deassociate_subpicture_backend env surface subpicture
    let trPre := pre.trace ++ [Ev.subUnref subpicture]
    if ¬ pre.ok then ⟨false, surface, trPre⟩
    else
      let res := associate_subpicture_backend env surface subpicture src_rect dst_rect
      if ¬ res.ok then ⟨false, surface, trPre ++ res.trace⟩
      else
        ⟨true, { surface with subpictures := some (subs1 ++ [subpicture]) },
          trPre ++ res.trace⟩
  else
    let res := associate_subpicture_backend env surface subpicture src_rect dst_rect
    if ¬ res.ok then ⟨false, surface, res.trace⟩
    else
      ⟨true, { surface with subpictures := some (subs1 ++ [subpicture]) },
        res.trace⟩

/-- gst_vaapi_surface_deassociate_subpicture: succeeds trivially when there
is no overlay set or the subpicture is not a member; otherwise removes the
membership first, then issues the backend deassociation and releases the
held reference. -/
def gst_vaapi_surface_deassociate_subpicture (env : Env)
    (surface : GstVaapiSurface) (subpicture : Nat) : SRes :=
  match surface.subpictures with
  | none => ⟨true, surface, []⟩
  | some subs =>
    let rf := g_ptr_array_remove_fast subs subpicture
    if ¬ rf.1 then ⟨true, surface, []⟩
    else
      let surface1 := { surface with subpictures := some rf.2 }
      let res := deassociate_subpicture_backend env surface1 subpicture
      ⟨res.ok, surface1, res.trace ++ [Ev.subUnref subpicture]⟩

/-- gst_vaapi_surface_destroy_subpictures: for every overlay member, in
order, performs the backend deassociation and releases the held reference
(destroy_subpicture_cb), then frees the array. -/
def gst_vaapi_surface_destroy_subpictures (env : Env)
    (surface : GstVaapiSurface) : GstVaapiSurface × List Ev :=
  match surface.subpictures with
  | none => (surface, [])
  | some subs =>
    ({ surface with subpictures := none },
      (subs.map (fun sub =>
        (deassociate_subpicture_backend env surface sub).trace
          ++ [Ev.subUnref sub])).flatten)

/-- gst_vaapi_surface_set_parent_context: stores NULL into the
parent-context field, whatever the argument. -/
def gst_vaapi_surface_set_parent_context (surface : GstVaapiSurface)
    (_context : Option Nat) : GstVaapiSurface :=
  { surface with parent_context := none }

/-- gst_vaapi_surface_get_parent_context: returns the stored
parent-context field. -/
def gst_vaapi_surface_get_parent_context (surface : GstVaapiSurface) :
    Option Nat :=
  surface.parent_context

/-- gst_vaapi_surface_destroy: teardown.  Deassociates and releases every
overlay member, clears the parent-context association, then (when the
handle is live) issues vaDestroySurfaces under the display lock and marks
the handle with the sentinel (warning only on backend failure), and finally
releases the external-buffer-memory reference.  No sub-step failure aborts
the sequence. -/
def gst_vaapi_surface_destroy (env : Env) (surface : GstVaapiSurface) :
    GstVaapiSurface × List Ev :=
  let surface_id := surface.object_id
  let d1 := gst_vaapi_surface_destroy_subpictures env surface
  let s2 := gst_vaapi_surface_set_parent_context d1.1 none
  let tr2 := [Ev.setParentContext]
  let d3 : GstVaapiSurface × List Ev :=
    if surface_id ≠ VA_INVALID_SURFACE then
      ({ s2 with object_id := VA_INVALID_SURFACE },
        [Ev.lock, Ev.vaDestroySurfaces surface_id, Ev.unlock])
    else (s2, [])
  let pr := gst_vaapi_buffer_proxy_replace d3.1.extbuf_proxy none
  ({ d3.1 with extbuf_proxy := pr.1 }, d1.2 ++ tr2 ++ d3.2 ++ pr.2)

/-- Result of gst_vaapi_surface_derive_image: the wrapper image (or NULL)
and the trace of issued backend calls. -/
structure DRes where
  image : Option GstVaapiImage
  trace : List Ev
deriving Repr

/-- gst_vaapi_surface_derive_image: initialises the descriptor's image and
buffer identities to the invalid sentinel, issues vaDeriveImage under the
display lock, treats backend failure or a structurally invalid descriptor
as NULL, and destroys the derived backend image when the wrapper object
cannot be constructed. -/
def gst_vaapi_surface_derive_image (env : Env) (_surface : GstVaapiSurface) :
    DRes :=
  let tr := [Ev.lock, Ev.vaDeriveImage, Ev.unlock]
  if ¬ vaapi_check_status env.deriveStatus then ⟨none, tr⟩
  else if env.deriveImageId = VA_INVALID_ID ∨ env.deriveBuf = VA_INVALID_ID then
    ⟨none, tr⟩
  else if env.imageNewOk then
    ⟨some ⟨env.deriveWidth, env.deriveHeight, env.deriveImageId⟩, tr⟩
  else
    ⟨none, tr ++ [Ev.vaDestroyImage env.deriveImageId]⟩

/-- gst_vaapi_surface_get_image: checks the display, the exact dimension
match and the image identity, then issues vaGetImage (full frame) under the
display lock. -/
def gst_vaapi_surface_get_image (env : Env) (surface : GstVaapiSurface)
    (image : GstVaapiImage) : BRes :=
  if ¬ surface.display then ⟨false, []⟩
  else
    let width := image.width
    let height := image.height
    if width ≠ surface.width ∨ height ≠ surface.height then ⟨false, []⟩
    else if image.image_id = VA_INVALID_ID then ⟨false, []⟩
    else
      ⟨vaapi_check_status env.getImageStatus,
        [Ev.lock, Ev.vaGetImage image.image_id, Ev.unlock]⟩

/-- gst_vaapi_surface_put_image: symmetric to get_image; checks the display,
the exact dimension match and the image identity, then issues vaPutImage
(full frame) under the display lock. -/
def gst_vaapi_surface_put_image (env : Env) (surface : GstVaapiSurface)
    (image : GstVaapiImage) : BRes :=
  if ¬ surface.display then ⟨false, []⟩
  else
    let width := image.width
    let height := image.height
    if width ≠ surface.width ∨ height ≠ surface.height then ⟨false, []⟩
    else if image.image_id = VA_INVALID_ID then ⟨false, []⟩
    else
      ⟨vaapi_check_status env.putImageStatus,
        [Ev.lock, Ev.vaPutImage image.image_id, Ev.unlock]⟩

/-- Result of gst_vaapi_surface_query_status: the C return value, the value
written through the out-pointer (none when nothing was written), and the
trace of issued backend calls. -/
structure QRes where
  ok : Bool
  written : Option Nat
  trace : List Ev
deriving Repr

/-- gst_vaapi_surface_query_status: issues vaQuerySurfaceStatus under the
display lock unconditionally; on backend failure returns FALSE; on success
stores the translated device-independent status through the out-pointer
only when that pointer is non-NULL (pstatus).  -/
def gst_vaapi_surface_query_status (env : Env) (_surface : GstVaapiSurface)
    (pstatus : Bool) : QRes :=
  let tr := [Ev.lock, Ev.vaQuerySurfaceStatus, Ev.unlock]
  if ¬ vaapi_check_status env.queryStatus then ⟨false, none, tr⟩
  else if pstatus then
    ⟨true, some (env.to_GstVaapiSurfaceStatus env.rawSurfaceStatus), tr⟩
  else ⟨true, none, tr⟩

/-- The loop body of gst_vaapi_surface_set_subpictures_from_composition over
the (index, render-rectangle) pairs of the composition: builds the
destination rectangle by clamping the y origin with the surface height and
the width with the surface width, creates the per-rectangle subpicture,
associates it (NULL source rectangle) and releases the local reference;
the first association failure aborts the loop. -/
def set_subpictures_loop (env : Env) :
    GstVaapiSurface → List (Nat × GstVaapiRectangle) → SRes
  | surface, [] => ⟨true, surface, []⟩
  | surface, (n, rect) :: rest =>
    let subpicture := env.subpicture_from_overlay_rectangle n
    let sub_rect : GstVaapiRectangle :=
      { x := rect.x
        y := min rect.y surface.height
        width := min rect.width surface.width
        height := rect.height }
    let res := gst_vaapi_surface_associate_subpicture env surface subpicture
      none (some sub_rect)
    let tr1 := res.trace ++ [Ev.subUnref subpicture]
    if ¬ res.ok then ⟨false, res.surface, tr1⟩
    else
      let rest_res := set_subpictures_loop env res.surface rest
      ⟨rest_res.ok, rest_res.surface, tr1 ++ rest_res.trace⟩

/-- gst_vaapi_surface_set_subpictures_from_composition: delegates to the
parent context when requested and present; otherwise checks the display,
clears the current overlay set, and (when a composition is supplied)
overlays each of its rectangles in order. -/
def gst_vaapi_surface_set_subpictures_from_composition (env : Env)
    (surface : GstVaapiSurface)
    (composition : Option (List GstVaapiRectangle))
    (propagate_context : Bool) : SRes :=
  if propagate_context ∧ surface.parent_context.isSome then
    ⟨env.context_apply_composition_ok, surface, [Ev.contextApplyComposition]⟩
  else if ¬ surface.display then ⟨false, surface, []⟩
  else
    let d := gst_vaapi_surface_destroy_subpictures env surface
    match composition with
    | none => ⟨true, d.1, d.2⟩
    | some rects =>
      let res := set_subpictures_loop env d.1 rects.enum
      ⟨res.ok, res.surface, d.2 ++ res.trace⟩

/-- An all-success environment used to instantiate concrete scenarios. -/
def env0 : Env :=
  { video_format_to_va_format := fun f => some (100 + f)
    video_format_get_chroma_type := fun f => 10 + f
    from_GstVaapiChromaType := fun c => 20 + c
    from_GstVaapiBufferMemoryType := fun t => t
    from_GstVaapiSubpictureFlags := fun f => f
    to_GstVaapiSurfaceStatus := fun s => 1000 + s
    subpicture_get_image := fun _ => some (16, 8)
    subpicture_get_flags := fun _ => 0
    subpicture_from_overlay_rectangle := fun n => 500 + n
    context_apply_composition_ok := true
    createStatus := VA_STATUS_SUCCESS
    createId := 42
    outWidth := 64
    outHeight := 48
    destroyStatus := VA_STATUS_SUCCESS
    deriveStatus := VA_STATUS_SUCCESS
    deriveImageId := 7
    deriveBuf := 8
    deriveWidth := 64
    deriveHeight := 48
    imageNewOk := true
    getImageStatus := VA_STATUS_SUCCESS
    putImageStatus := VA_STATUS_SUCCESS
    associateStatus := VA_STATUS_SUCCESS
    deassociateStatus := fun _ => VA_STATUS_SUCCESS
    queryStatus := VA_STATUS_SUCCESS
    rawSurfaceStatus := 3 }

/-- A fresh surface as handed to the creation strategies by the base object
framework (sentinel handle, live display, zeroed metadata). -/
def surf0 : GstVaapiSurface :=
  { object_id := VA_INVALID_SURFACE
    display := true
    format := 0
    chroma_type := 0
    width := 0
    height := 0
    parent_context := none
    subpictures := none
    extbuf_proxy := none }

/-- A live 50x40 surface with an empty overlay state, used in concrete
overlay scenarios. -/
def surf50 : GstVaapiSurface :=
  { object_id := 9
    display := true
    format := 2
    chroma_type := 12
    width := 50
    height := 40
    parent_context := none
    subpictures := none
    extbuf_proxy := none }

/-- A concrete 64x48 video-info record. -/
def vip64 : GstVideoInfo :=
  { format := 2
    width := 64
    height := 48
    n_planes := 2
    stride := fun i => 64 * (i + 1)
    offset := fun i => 64 * 48 * i }

/-- A concrete buffer-memory proxy. -/
def proxy0 : GstVaapiBufferProxy :=
  { handle := 77, size := 4608, mem_type := 1 }

/-- Predicate picking out backend association calls in a trace. -/
def Ev.isAssoc : Ev → Bool
  | Ev.vaAssociateSubpicture _ _ _ => true
  | _ => false

/-- Predicate picking out backend deassociation calls in a trace. -/
def Ev.isDeassoc : Ev → Bool
  | Ev.vaDeassociateSubpicture _ => true
  | _ => false

/-- Predicate picking out subpicture reference releases in a trace. -/
def Ev.isSubUnref : Ev → Bool
  | Ev.subUnref _ => true
  | _ => false

/-- g_ptr_array_remove_fast of an element that is not a member reports
failure and leaves the array unchanged. -/
theorem g_ptr_array_remove_fast_not_mem {l : List Nat} {x : Nat} (h : x ∉ l) :
    g_ptr_array_remove_fast l x = (false, l) := by
  unfold g_ptr_array_remove_fast
  have hnone : List.findIdx? (fun y => decide (y = x)) l = none := by
    rw [List.findIdx?_eq_none_iff]
    intro y hy
    simp only [decide_eq_false_iff_not]
    exact fun e => h (e ▸ hy)
  rw [hnone]

/-- g_ptr_array_remove_fast of an element whose only occurrence is the last
slot truncates the array to its prefix. -/
theorem g_ptr_array_remove_fast_last {l : List Nat} {x : Nat} (h : x ∉ l) :
    g_ptr_array_remove_fast (l ++ [x]) x = (true, l) := by
  have hnone : List.findIdx? (fun y => decide (y = x)) l = none := by
    rw [List.findIdx?_eq_none_iff]
    intro y hy
    simp only [decide_eq_false_iff_not]
    exact fun e => h (e ▸ hy)
  have hidx : List.findIdx? (fun y => decide (y = x)) (l ++ [x]) = some l.length := by
    rw [List.findIdx?_append, hnone]
    simp [List.findIdx?_cons]
  unfold g_ptr_array_remove_fast
  rw [hidx, List.getLast?_concat]
  simp only [Option.getD_some]
  rw [List.set_append_right _ _ (Nat.le_refl _), Nat.sub_self]
  simp [List.dropLast_concat]

/-- Associating a subpicture only touches the overlay set: the handle, the
display, the metadata, the parent context and the buffer-memory reference
of the surface are unchanged whatever the outcome. -/
theorem gst_vaapi_surface_associate_subpicture_fields (env : Env)
    (s : GstVaapiSurface) (sub : Nat)
    (src_rect dst_rect : Option GstVaapiRectangle) :
    ((gst_vaapi_surface_associate_subpicture env s sub src_rect dst_rect).surface).object_id = s.object_id ∧
    ((gst_vaapi_surface_associate_subpicture env s sub src_rect dst_rect).surface).display = s.display ∧
    ((gst_vaapi_surface_associate_subpicture env s sub src_rect dst_rect).surface).width = s.width ∧
    ((gst_vaapi_surface_associate_subpicture env s sub src_rect dst_rect).surface).height = s.height ∧
    ((gst_vaapi_surface_associate_subpicture env s sub src_rect dst_rect).surface).parent_context = s.parent_context ∧
    ((gst_vaapi_surface_associate_subpicture env s sub src_rect dst_rect).surface).extbuf_proxy = s.extbuf_proxy := by
  unfold gst_vaapi_surface_associate_subpicture
  cases s.subpictures <;> dsimp only <;> split <;> split <;> (try split) <;>
    simp_all

/-- C5: for every surface and every context argument (including a non-NULL
one), gst_vaapi_surface_set_parent_context stores NULL into the surface's
parent-context field regardless of the argument, so a subsequent
gst_vaapi_surface_get_parent_context returns NULL after any setter call. -/
theorem claim_C5_set_parent_context_nulls (s : GstVaapiSurface)
    (context : Option Nat) :
    (gst_vaapi_surface_set_parent_context s context).parent_context = none ∧
    gst_vaapi_surface_get_parent_context
      (gst_vaapi_surface_set_parent_context s context) = none :=
  ⟨rfl, rfl⟩

/-- C6: deassociating when the surface has no overlay set, or when the
subpicture is not a member, returns success without invoking the backend
(empty trace) and leaves the surface — in particular the overlay set and
its size — unchanged; deassociating a never-associated subpicture is an
idempotent no-op. -/
theorem claim_C6_deassociate_nonmember_noop (env : Env)
    (s : GstVaapiSurface) (sub : Nat)
    (h : s.subpictures = none ∨ sub ∉ s.subpictures.getD []) :
    gst_vaapi_surface_deassociate_subpicture env s sub = ⟨true, s, []⟩ := by
  unfold gst_vaapi_surface_deassociate_subpicture
  cases hsub : s.subpictures with
  | none => rfl
  | some subs =>
    have hnm : sub ∉ subs := by
      rcases h with h | h
      · exact absurd (hsub ▸ h) (by simp)
      · simpa [hsub] using h
    simp [g_ptr_array_remove_fast_not_mem hnm]

/-- C6 witness: deassociating subpicture 7, never associated with a surface
whose overlay set is [5], is a successful no-op issuing no backend call. -/
theorem claim_C6_witness :
    gst_vaapi_surface_deassociate_subpicture env0
      { surf50 with subpictures := some [5] } 7 =
      ⟨true, { surf50 with subpictures := some [5] }, []⟩ :=
  claim_C6_deassociate_nonmember_noop env0 _ 7 (by decide)

/-- C7: get_image and put_image fail with an empty trace (no backend
transfer call) whenever the image dimensions differ from the surface's or
the image identity is the invalid sentinel; conversely a transfer call
appears in the trace only when both preconditions hold. -/
theorem claim_C7_image_copy_preconditions (env : Env)
    (s : GstVaapiSurface) (image : GstVaapiImage) :
    ((image.width ≠ s.width ∨ image.height ≠ s.height ∨
        image.image_id = VA_INVALID_ID) →
      gst_vaapi_surface_get_image env s image = ⟨false, []⟩ ∧
      gst_vaapi_surface_put_image env s image = ⟨false, []⟩) ∧
    ((gst_vaapi_surface_get_image env s image).trace ≠ [] →
      image.width = s.width ∧ image.height = s.height ∧
      image.image_id ≠ VA_INVALID_ID) ∧
    ((gst_vaapi_surface_put_image env s image).trace ≠ [] →
      image.width = s.width ∧ image.height = s.height ∧
      image.image_id ≠ VA_INVALID_ID) := by
  unfold gst_vaapi_surface_get_image gst_vaapi_surface_put_image
  refine ⟨?_, ?_, ?_⟩ <;>
    · dsimp only; split <;> (try split) <;> (try split) <;> simp_all

/-- C7 witness: a 50x41 image on a 50x40 surface fails with no backend
call; a 50x40 image with identity 3 satisfies the preconditions under
which a transfer was issued. -/
theorem claim_C7_witness :
    (gst_vaapi_surface_get_image env0 surf50 ⟨50, 41, 3⟩ = ⟨false, []⟩ ∧
      gst_vaapi_surface_put_image env0 surf50 ⟨50, 41, 3⟩ = ⟨false, []⟩) ∧
    ((50 : Nat) = surf50.width ∧ (40 : Nat) = surf50.height ∧
      (3 : Nat) ≠ VA_INVALID_ID) :=
  ⟨(claim_C7_image_copy_preconditions env0 surf50 ⟨50, 41, 3⟩).1 (by decide),
   (claim_C7_image_copy_preconditions env0 surf50 ⟨50, 40, 3⟩).2.1 (by decide)⟩

/-- C9: when vaDeriveImage succeeds but the populated descriptor is
structurally invalid (image or buffer identity is the invalid sentinel),
derive_image returns NULL; when the descriptor is valid but the wrapper
object cannot be constructed, derive_image returns NULL and the derived
backend image is destroyed. -/
theorem claim_C9_derive_image_invalid_result (env : Env)
    (s : GstVaapiSurface) :
    (vaapi_check_status env.deriveStatus = true →
      (env.deriveImageId = VA_INVALID_ID ∨ env.deriveBuf = VA_INVALID_ID) →
      (gst_vaapi_surface_derive_image env s).image = none) ∧
    (vaapi_check_status env.deriveStatus = true →
      env.deriveImageId ≠ VA_INVALID_ID → env.deriveBuf ≠ VA_INVALID_ID →
      env.imageNewOk = false →
      (gst_vaapi_surface_derive_image env s).image = none ∧
      Ev.vaDestroyImage env.deriveImageId ∈
        (gst_vaapi_surface_derive_image env s).trace) := by
  unfold gst_vaapi_surface_derive_image
  refine ⟨?_, ?_⟩ <;>
    · dsimp only; split <;> (try split) <;> (try split) <;> simp_all <;> tauto

/-- C9 witness: with a successful derive whose buffer identity is the
invalid sentinel the result is NULL; with a valid descriptor but a failing
wrapper construction the result is NULL and the derived image (id 7) is
destroyed. -/
theorem claim_C9_witness :
    (gst_vaapi_surface_derive_image { env0 with deriveBuf := VA_INVALID_ID }
        surf50).image = none ∧
    ((gst_vaapi_surface_derive_image { env0 with imageNewOk := false }
        surf50).image = none ∧
      Ev.vaDestroyImage 7 ∈
        (gst_vaapi_surface_derive_image { env0 with imageNewOk := false }
          surf50).trace) :=
  ⟨(claim_C9_derive_image_invalid_result
      { env0 with deriveBuf := VA_INVALID_ID } surf50).1 (by decide) (by decide),
   (claim_C9_derive_image_invalid_result
      { env0 with imageNewOk := false } surf50).2 (by decide) (by decide)
      (by decide) (by decide)⟩

/-- C10: query_status always issues the backend status query (also with a
NULL out-pointer); with a NULL out-pointer and a succeeding backend it
returns success writing nothing; the translated status is stored only when
the out-pointer is non-NULL. -/
theorem claim_C10_query_status_null_pointer (env : Env)
    (s : GstVaapiSurface) :
    (gst_vaapi_surface_query_status env s false).trace =
      [Ev.lock, Ev.vaQuerySurfaceStatus, Ev.unlock] ∧
    (gst_vaapi_surface_query_status env s true).trace =
      [Ev.lock, Ev.vaQuerySurfaceStatus, Ev.unlock] ∧
    (env.queryStatus = VA_STATUS_SUCCESS →
      gst_vaapi_surface_query_status env s false =
        ⟨true, none, [Ev.lock, Ev.vaQuerySurfaceStatus, Ev.unlock]⟩) ∧
    (env.queryStatus = VA_STATUS_SUCCESS →
      (gst_vaapi_surface_query_status env s true).written =
        some (env.to_GstVaapiSurfaceStatus env.rawSurfaceStatus)) := by
  unfold gst_vaapi_surface_query_status
  refine ⟨?_, ?_, ?_, ?_⟩ <;> · dsimp only; split <;> simp_all [vaapi_check_status]

/-- C10 witness: with an all-success backend, querying with a NULL
out-pointer issues the backend query, succeeds and writes nothing; with a
non-NULL out-pointer the translated status is written. -/
theorem claim_C10_witness :
    gst_vaapi_surface_query_status env0 surf50 false =
      ⟨true, none, [Ev.lock, Ev.vaQuerySurfaceStatus, Ev.unlock]⟩ ∧
    (gst_vaapi_surface_query_status env0 surf50 true).written = some 1003 :=
  ⟨(claim_C10_query_status_null_pointer env0 surf50).2.2.1 (by decide),
   (claim_C10_query_status_null_pointer env0 surf50).2.2.2 (by decide)⟩

/-- Teardown always clears the external-buffer-memory field and, when a
reference was held, releases it (the proxyUnref event appears in the
teardown trace). -/
theorem gst_vaapi_surface_destroy_releases_extbuf (env : Env)
    (s : GstVaapiSurface) (p : GstVaapiBufferProxy)
    (hp : s.extbuf_proxy = some p) :
    (gst_vaapi_surface_destroy env s).1.extbuf_proxy = none ∧
    Ev.proxyUnref p.handle ∈ (gst_vaapi_surface_destroy env s).2 := by
  unfold gst_vaapi_surface_destroy gst_vaapi_surface_destroy_subpictures
    gst_vaapi_surface_set_parent_context gst_vaapi_buffer_proxy_replace
  cases hsub : s.subpictures <;> dsimp only <;> split <;> simp_all

/-- C8: external-buffer creation takes (or replaces) the owned reference to
the caller's buffer-memory proxy unconditionally — in particular on every
failure path, including the ones before format/chroma validation succeeds —
so that the surface already holds it, and the standard destroy path clears
the field and releases that reference. -/
theorem claim_C8_extbuf_reference_uniform_release (env : Env)
    (s : GstVaapiSurface) (proxy : GstVaapiBufferProxy) (vip : GstVideoInfo) :
    (gst_vaapi_surface_create_from_buffer_proxy env s proxy vip).surface.extbuf_proxy
        = some proxy ∧
    (gst_vaapi_surface_destroy env
        (gst_vaapi_surface_create_from_buffer_proxy env s proxy vip).surface).1.extbuf_proxy
        = none ∧
    Ev.proxyUnref proxy.handle ∈
      (gst_vaapi_surface_destroy env
        (gst_vaapi_surface_create_from_buffer_proxy env s proxy vip).surface).2 := by
  have h1 : (gst_vaapi_surface_create_from_buffer_proxy env s proxy vip).surface.extbuf_proxy
      = some proxy := by
    unfold gst_vaapi_surface_create_from_buffer_proxy gst_vaapi_buffer_proxy_replace
    dsimp only
    split <;> (try split) <;> (try split) <;> (try split) <;> simp_all
  have h2 := gst_vaapi_surface_destroy_releases_extbuf env _ proxy h1
  exact ⟨h1, h2.1, h2.2⟩

/-- C1 counterexample: in the external-buffer strategy, with a backend that
grants 32x24 through the populated descriptor while 64x48 was requested,
the creation succeeds and commits width 64 — the requested value — not the
value read back from the populated descriptor (32).  The committed
dimensions therefore are not in general those granted through the
descriptor for each of the three strategies. -/
theorem claim_C1_counterexample :
    (gst_vaapi_surface_create_from_buffer_proxy
        { env0 with outWidth := 32, outHeight := 24 } surf0 proxy0 vip64).ok
      = true ∧
    (gst_vaapi_surface_create_from_buffer_proxy
        { env0 with outWidth := 32, outHeight := 24 } surf0 proxy0 vip64).surface.width
      = 64 ∧
    (create_from_buffer_proxy_extbuf_out
        { env0 with outWidth := 32, outHeight := 24 } proxy0 vip64).width
      = 32 ∧
    (64 : Nat) ≠ 32 := by
  refine ⟨rfl, rfl, rfl, by decide⟩

/-- C1 amended: for each of the three creation strategies, a failed backend
allocation leaves the surface's format, chroma type, width and height
unchanged, and a successful one commits all four.  The committed
width/height are read back from the populated external-buffer descriptor
only in the explicit-format strategy; the implicit-format and
external-buffer strategies commit the requested values (the external-buffer
strategy also replaces the owned buffer-memory reference on every path). -/
theorem claim_C1_amended (env : Env) (s : GstVaapiSurface)
    (ct w h : Nat) (vip : GstVideoInfo) (flags : Nat)
    (proxy : GstVaapiBufferProxy) :
    ((gst_vaapi_surface_create env s ct w h).ok = false →
      (gst_vaapi_surface_create env s ct w h).surface = s) ∧
    ((gst_vaapi_surface_create env s ct w h).ok = true →
      (gst_vaapi_surface_create env s ct w h).surface =
        { s with format := GST_VIDEO_FORMAT_UNKNOWN, chroma_type := ct,
                 width := w, height := h, object_id := env.createId }) ∧
    ((gst_vaapi_surface_create_full env s vip flags).ok = false →
      (gst_vaapi_surface_create_full env s vip flags).surface = s) ∧
    ((gst_vaapi_surface_create_full env s vip flags).ok = true →
      (gst_vaapi_surface_create_full env s vip flags).surface =
        { s with format := vip.format,
                 chroma_type := env.video_format_get_chroma_type vip.format,
                 width := (create_full_extbuf_out env vip flags).width,
                 height := (create_full_extbuf_out env vip flags).height,
                 object_id := env.createId }) ∧
    ((gst_vaapi_surface_create_from_buffer_proxy env s proxy vip).ok = false →
      (gst_vaapi_surface_create_from_buffer_proxy env s proxy vip).surface =
        { s with extbuf_proxy := some proxy }) ∧
    ((gst_vaapi_surface_create_from_buffer_proxy env s proxy vip).ok = true →
      (gst_vaapi_surface_create_from_buffer_proxy env s proxy vip).surface =
        { s with format := vip.format,
                 chroma_type := env.video_format_get_chroma_type vip.format,
                 width := vip.width, height := vip.height,
                 object_id := env.createId,
                 extbuf_proxy := some proxy }) := by
  refine ⟨?_, ?_, ?_, ?_, ?_, ?_⟩
  · unfold gst_vaapi_surface_create
    dsimp only; split <;> (try split) <;> simp_all
  · unfold gst_vaapi_surface_create
    dsimp only; split <;> (try split) <;> simp_all
  · unfold gst_vaapi_surface_create_full
    dsimp only; split <;> (try split) <;> (try split) <;> (try split) <;> simp_all
  · unfold gst_vaapi_surface_create_full
    dsimp only; split <;> (try split) <;> (try split) <;> (try split) <;> simp_all
  · unfold gst_vaapi_surface_create_from_buffer_proxy gst_vaapi_buffer_proxy_replace
    dsimp only; split <;> (try split) <;> (try split) <;> (try split) <;> simp_all
  · unfold gst_vaapi_surface_create_from_buffer_proxy gst_vaapi_buffer_proxy_replace
    dsimp only; split <;> (try split) <;> (try split) <;> (try split) <;> simp_all

/-- C1 amended witness: concrete failing (backend status 1) and succeeding
(all-success environment) runs of each strategy. -/
theorem claim_C1_witness :
    (gst_vaapi_surface_create { env0 with createStatus := 1 } surf0 12 64 48).surface
      = surf0 ∧
    (gst_vaapi_surface_create env0 surf0 12 64 48).surface =
      { surf0 with format := GST_VIDEO_FORMAT_UNKNOWN, chroma_type := 12,
                   width := 64, height := 48, object_id := 42 } ∧
    (gst_vaapi_surface_create_full { env0 with createStatus := 1 } surf0 vip64 0).surface
      = surf0 ∧
    (gst_vaapi_surface_create_full env0 surf0 vip64 0).surface =
      { surf0 with format := 2, chroma_type := 12,
                   width := (create_full_extbuf_out env0 vip64 0).width,
                   height := (create_full_extbuf_out env0 vip64 0).height,
                   object_id := 42 } ∧
    (gst_vaapi_surface_create_from_buffer_proxy { env0 with createStatus := 1 }
        surf0 proxy0 vip64).surface = { surf0 with extbuf_proxy := some proxy0 } ∧
    (gst_vaapi_surface_create_from_buffer_proxy env0 surf0 proxy0 vip64).surface =
      { surf0 with format := 2, chroma_type := 12, width := 64, height := 48,
                   object_id := 42, extbuf_proxy := some proxy0 } :=
  ⟨(claim_C1_amended { env0 with createStatus := 1 } surf0 12 64 48 vip64 0 proxy0).1
      (by decide),
   (claim_C1_amended env0 surf0 12 64 48 vip64 0 proxy0).2.1 (by decide),
   (claim_C1_amended { env0 with createStatus := 1 } surf0 12 64 48 vip64 0 proxy0).2.2.1
      (by decide),
   (claim_C1_amended env0 surf0 12 64 48 vip64 0 proxy0).2.2.2.1 (by decide),
   (claim_C1_amended { env0 with createStatus := 1 } surf0 12 64 48 vip64 0 proxy0).2.2.2.2.1
      (by decide),
   (claim_C1_amended env0 surf0 12 64 48 vip64 0 proxy0).2.2.2.2.2 (by decide)⟩

/-- Each overlay member contributes exactly one backend deassociation call
to the teardown cascade. -/
theorem countP_isDeassoc_cascade (subs : List Nat) :
    ((subs.map (fun sub =>
        [Ev.lock, Ev.vaDeassociateSubpicture sub, Ev.unlock,
         Ev.subUnref sub])).flatten).countP Ev.isDeassoc = subs.length := by
  induction subs with
  | nil => rfl
  | cons a l ih => simp_all [List.countP_append, List.countP_cons, Ev.isDeassoc]

/-- Each overlay member contributes exactly one reference release to the
teardown cascade. -/
theorem countP_isSubUnref_cascade (subs : List Nat) :
    ((subs.map (fun sub =>
        [Ev.lock, Ev.vaDeassociateSubpicture sub, Ev.unlock,
         Ev.subUnref sub])).flatten).countP Ev.isSubUnref = subs.length := by
  induction subs with
  | nil => rfl
  | cons a l ih => simp_all [List.countP_append, List.countP_cons, Ev.isSubUnref]

/-- C4: destroying a surface with N overlay members (live display, live
handle) issues, for each member in order, a backend deassociation followed
by a reference release — hence exactly N deassociation calls and N
releases — then clears the parent-context association, then issues the
backend destroy under the device lock (with the handle left at the
sentinel), and finally releases the external-buffer-memory reference; the
trace equality holds for every environment, so no sub-step failure aborts
the teardown. -/
theorem claim_C4_destroy_ordering (env : Env) (s : GstVaapiSurface)
    (hd : s.display = true) (hid : s.object_id ≠ VA_INVALID_SURFACE) :
    (gst_vaapi_surface_destroy env s).2 =
      ((s.subpictures.getD []).map (fun sub =>
          [Ev.lock, Ev.vaDeassociateSubpicture sub, Ev.unlock,
           Ev.subUnref sub])).flatten
        ++ [Ev.setParentContext]
        ++ [Ev.lock, Ev.vaDestroySurfaces s.object_id, Ev.unlock]
        ++ (match s.extbuf_proxy with
            | some p => [Ev.proxyUnref p.handle]
            | none => []) ∧
    (gst_vaapi_surface_destroy env s).2.countP Ev.isDeassoc =
      (s.subpictures.getD []).length ∧
    (gst_vaapi_surface_destroy env s).2.countP Ev.isSubUnref =
      (s.subpictures.getD []).length ∧
    (gst_vaapi_surface_destroy env s).1.object_id = VA_INVALID_SURFACE ∧
    (gst_vaapi_surface_destroy env s).1.subpictures = none ∧
    (gst_vaapi_surface_destroy env s).1.parent_context = none ∧
    (gst_vaapi_surface_destroy env s).1.extbuf_proxy = none := by
  have htr : (gst_vaapi_surface_destroy env s).2 =
      ((s.subpictures.getD []).map (fun sub =>
          [Ev.lock, Ev.vaDeassociateSubpicture sub, Ev.unlock,
           Ev.subUnref sub])).flatten
        ++ [Ev.setParentContext]
        ++ [Ev.lock, Ev.vaDestroySurfaces s.object_id, Ev.unlock]
        ++ (match s.extbuf_proxy with
            | some p => [Ev.proxyUnref p.handle]
            | none => []) := by
    unfold gst_vaapi_surface_destroy gst_vaapi_surface_destroy_subpictures
      gst_vaapi_surface_set_parent_context gst_vaapi_buffer_proxy_replace
      deassociate_subpicture_backend
    cases hsub : s.subpictures <;> cases hp : s.extbuf_proxy <;>
      simp_all
  refine ⟨htr, ?_, ?_, ?_, ?_, ?_, ?_⟩
  · rw [htr, List.countP_append, List.countP_append, List.countP_append,
      countP_isDeassoc_cascade]
    cases s.extbuf_proxy <;>
      simp [Ev.isDeassoc, List.countP_cons, List.countP_nil]
  · rw [htr, List.countP_append, List.countP_append, List.countP_append,
      countP_isSubUnref_cascade]
    cases s.extbuf_proxy <;>
      simp [Ev.isSubUnref, List.countP_cons, List.countP_nil]
  · unfold gst_vaapi_surface_destroy gst_vaapi_surface_destroy_subpictures
      gst_vaapi_surface_set_parent_context gst_vaapi_buffer_proxy_replace
    cases hsub : s.subpictures <;> simp_all
  · unfold gst_vaapi_surface_destroy gst_vaapi_surface_destroy_subpictures
      gst_vaapi_surface_set_parent_context gst_vaapi_buffer_proxy_replace
    cases hsub : s.subpictures <;> simp_all
  · unfold gst_vaapi_surface_destroy gst_vaapi_surface_destroy_subpictures
      gst_vaapi_surface_set_parent_context gst_vaapi_buffer_proxy_replace
    cases hsub : s.subpictures <;> simp_all
  · unfold gst_vaapi_surface_destroy gst_vaapi_surface_destroy_subpictures
      gst_vaapi_surface_set_parent_context gst_vaapi_buffer_proxy_replace
    cases hsub : s.subpictures <;> simp_all

/-- The environment of the C4 witness: every teardown-relevant backend call
fails, to exhibit that no sub-step failure aborts the sequence. -/
def envC4 : Env :=
  { env0 with deassociateStatus := fun _ => 5, destroyStatus := 7 }

/-- The surface of the C4 witness: two overlay members, a held
external-buffer reference, a live handle. -/
def surfC4 : GstVaapiSurface :=
  { surf50 with subpictures := some [5, 6], extbuf_proxy := some proxy0 }

/-- C4 witness: destroying a live surface with overlay members 5 and 6 and
a held buffer-memory reference, under an environment whose deassociation
and destroy calls all fail, still produces the full ordered teardown
trace and clears the external-buffer reference. -/
theorem claim_C4_witness :
    (gst_vaapi_surface_destroy envC4 surfC4).2 =
      [Ev.lock, Ev.vaDeassociateSubpicture 5, Ev.unlock, Ev.subUnref 5,
       Ev.lock, Ev.vaDeassociateSubpicture 6, Ev.unlock, Ev.subUnref 6,
       Ev.setParentContext, Ev.lock, Ev.vaDestroySurfaces 9, Ev.unlock,
       Ev.proxyUnref 77] ∧
    (gst_vaapi_surface_destroy envC4 surfC4).1.extbuf_proxy = none :=
  ⟨((claim_C4_destroy_ordering envC4 surfC4 (by decide) (by decide)).1).trans
      (by decide),
   (claim_C4_destroy_ordering envC4 surfC4 (by decide) (by decide)).2.2.2.2.2.2⟩

/-- Under a live display, a live handle and an all-success backend,
associating with a NULL source rectangle succeeds, and the association
calls in its trace consist of the single backend call whose source
rectangle is the subpicture's whole image and whose destination rectangle
is the one supplied. -/
theorem gst_vaapi_surface_associate_subpicture_success (env : Env)
    (s : GstVaapiSurface) (sub : Nat) (dst : GstVaapiRectangle)
    (imgw imgh : Nat → Nat)
    (hd : s.display = true) (hid : s.object_id ≠ VA_INVALID_SURFACE)
    (ha : env.associateStatus = VA_STATUS_SUCCESS)
    (hde : ∀ t, env.deassociateStatus t = VA_STATUS_SUCCESS)
    (himg : ∀ t, env.subpicture_get_image t = some (imgw t, imgh t)) :
    (gst_vaapi_surface_associate_subpicture env s sub none (some dst)).ok = true ∧
    (gst_vaapi_surface_associate_subpicture env s sub none (some dst)).trace.filter
        Ev.isAssoc =
      [Ev.vaAssociateSubpicture sub ⟨0, 0, imgw sub, imgh sub⟩ dst] := by
  unfold gst_vaapi_surface_associate_subpicture associate_subpicture_backend
    deassociate_subpicture_backend
  cases hsub : s.subpictures <;> dsimp only <;> split <;>
    simp_all [vaapi_check_status, Ev.isAssoc, List.filter_append]

/-- Clearing the overlay set during teardown or rebuild issues no backend
association call. -/
theorem filter_isAssoc_destroy_subpictures (env : Env) (s : GstVaapiSurface) :
    (gst_vaapi_surface_destroy_subpictures env s).2.filter Ev.isAssoc = [] := by
  unfold gst_vaapi_surface_destroy_subpictures
  cases hsub : s.subpictures with
  | none => rfl
  | some subs =>
    dsimp only
    clear hsub
    induction subs with
    | nil => rfl
    | cons a l ih =>
      unfold deassociate_subpicture_backend
      unfold deassociate_subpicture_backend at ih
      simp only [List.map_cons, List.flatten_cons, List.filter_append] at *
      rw [ih]
      split <;> (try split) <;> simp [Ev.isAssoc]

/-- Clearing the overlay set touches only the subpictures field. -/
theorem gst_vaapi_surface_destroy_subpictures_fields (env : Env)
    (s : GstVaapiSurface) :
    (gst_vaapi_surface_destroy_subpictures env s).1.object_id = s.object_id ∧
    (gst_vaapi_surface_destroy_subpictures env s).1.display = s.display ∧
    (gst_vaapi_surface_destroy_subpictures env s).1.width = s.width ∧
    (gst_vaapi_surface_destroy_subpictures env s).1.height = s.height ∧
    (gst_vaapi_surface_destroy_subpictures env s).1.parent_context =
      s.parent_context := by
  unfold gst_vaapi_surface_destroy_subpictures
  cases s.subpictures <;> simp

/-- The composition-rebuild loop, run under a live display, a live handle
and an all-success backend, succeeds and issues exactly one association
call per rectangle, whose destination rectangle carries the rectangle's x
origin and height unchanged, its y origin clamped with the surface height
and its width clamped with the surface width. -/
theorem set_subpictures_loop_filter (env : Env) (imgw imgh : Nat → Nat)
    (ha : env.associateStatus = VA_STATUS_SUCCESS)
    (hde : ∀ t, env.deassociateStatus t = VA_STATUS_SUCCESS)
    (himg : ∀ t, env.subpicture_get_image t = some (imgw t, imgh t))
    (pairs : List (Nat × GstVaapiRectangle)) :
    ∀ (s : GstVaapiSurface), s.display = true →
      s.object_id ≠ VA_INVALID_SURFACE →
      (set_subpictures_loop env s pairs).ok = true ∧
      (set_subpictures_loop env s pairs).trace.filter Ev.isAssoc =
        pairs.map (fun p =>
          Ev.vaAssociateSubpicture (env.subpicture_from_overlay_rectangle p.1)
            ⟨0, 0, imgw (env.subpicture_from_overlay_rectangle p.1),
                   imgh (env.subpicture_from_overlay_rectangle p.1)⟩
            ⟨p.2.x, min p.2.y s.height, min p.2.width s.width, p.2.height⟩) := by
  induction pairs with
  | nil =>
    intro s _ _
    exact ⟨rfl, by simp [set_subpictures_loop]⟩
  | cons p rest ih =>
    intro s hd hid
    obtain ⟨n, rect⟩ := p
    have hsucc := gst_vaapi_surface_associate_subpicture_success env s
      (env.subpicture_from_overlay_rectangle n)
      ⟨rect.x, min rect.y s.height, min rect.width s.width, rect.height⟩
      imgw imgh hd hid ha hde himg
    have hfields := gst_vaapi_surface_associate_subpicture_fields env s
      (env.subpicture_from_overlay_rectangle n) none
      (some ⟨rect.x, min rect.y s.height, min rect.width s.width, rect.height⟩)
    have ih' := ih
      (gst_vaapi_surface_associate_subpicture env s
        (env.subpicture_from_overlay_rectangle n) none
        (some ⟨rect.x, min rect.y s.height, min rect.width s.width,
          rect.height⟩)).surface
      (by rw [hfields.2.1]; exact hd) (by rw [hfields.1]; exact hid)
    simp only [hfields.2.2.1, hfields.2.2.2.1] at ih'
    unfold set_subpictures_loop
    simp only [List.map_cons, List.filter_append, hsucc.1, hsucc.2, ih'.1,
      ih'.2, Bool.not_true, if_neg]
    simp [Ev.isAssoc, hsucc.1, hsucc.2, ih'.1, ih'.2]

/-- C2 counterexample: on a 50x40 surface, the composition rectangle with
render geometry x=70, y=100, width=200, height=300 is associated with
destination rectangle x=70, y=40, width=50, height=300 — the height extent
(300) exceeds the surface height (40) unclamped, refuting that both
extents are clamped. -/
theorem claim_C2_counterexample :
    (gst_vaapi_surface_set_subpictures_from_composition env0 surf50
        (some [⟨70, 100, 200, 300⟩]) false).trace.filter Ev.isAssoc =
      [Ev.vaAssociateSubpicture 500 ⟨0, 0, 16, 8⟩ ⟨70, 40, 50, 300⟩] ∧
    ¬ ((300 : Nat) ≤ surf50.height) := by
  refine ⟨by decide, by decide⟩

/-- C2 amended: in the bulk rebuild from a composition, each rectangle's
destination rectangle is its render geometry with the y origin clamped to
the surface height and the width clamped to the surface width, while the x
origin and the height are left unclamped. -/
theorem claim_C2_amended_clamping (env : Env) (s : GstVaapiSurface)
    (rects : List GstVaapiRectangle) (imgw imgh : Nat → Nat)
    (hd : s.display = true) (hid : s.object_id ≠ VA_INVALID_SURFACE)
    (ha : env.associateStatus = VA_STATUS_SUCCESS)
    (hde : ∀ t, env.deassociateStatus t = VA_STATUS_SUCCESS)
    (himg : ∀ t, env.subpicture_get_image t = some (imgw t, imgh t)) :
    (gst_vaapi_surface_set_subpictures_from_composition env s
        (some rects) false).ok = true ∧
    (gst_vaapi_surface_set_subpictures_from_composition env s
        (some rects) false).trace.filter Ev.isAssoc =
      rects.enum.map (fun p =>
        Ev.vaAssociateSubpicture (env.subpicture_from_overlay_rectangle p.1)
          ⟨0, 0, imgw (env.subpicture_from_overlay_rectangle p.1),
                 imgh (env.subpicture_from_overlay_rectangle p.1)⟩
          ⟨p.2.x, min p.2.y s.height, min p.2.width s.width, p.2.height⟩) := by
  have hfields := gst_vaapi_surface_destroy_subpictures_fields env s
  have hloop := set_subpictures_loop_filter env imgw imgh ha hde himg
    rects.enum (gst_vaapi_surface_destroy_subpictures env s).1
    (by rw [hfields.2.1]; exact hd) (by rw [hfields.1]; exact hid)
  simp only [hfields.2.2.1, hfields.2.2.2.1] at hloop
  unfold gst_vaapi_surface_set_subpictures_from_composition
  simp [hd, hloop.1, hloop.2, List.filter_append,
    filter_isAssoc_destroy_subpictures]

/-- C2 amended witness: the concrete 50x40 scenario of the counterexample
satisfies the amended statement. -/
theorem claim_C2_witness :
    (gst_vaapi_surface_set_subpictures_from_composition env0 surf50
        (some [⟨70, 100, 200, 300⟩]) false).ok = true ∧
    (gst_vaapi_surface_set_subpictures_from_composition env0 surf50
        (some [⟨70, 100, 200, 300⟩]) false).trace.filter Ev.isAssoc =
      ([⟨70, 100, 200, 300⟩] :
          List GstVaapiRectangle).enum.map (fun p =>
        Ev.vaAssociateSubpicture (env0.subpicture_from_overlay_rectangle p.1)
          ⟨0, 0, 16, 8⟩
          ⟨p.2.x, min p.2.y surf50.height, min p.2.width surf50.width,
            p.2.height⟩) :=
  claim_C2_amended_clamping env0 surf50 [⟨70, 100, 200, 300⟩]
    (fun _ => 16) (fun _ => 8) (by decide) (by decide) (by decide)
    (fun _ => rfl) (fun _ => rfl)

/-- C3: with a live display, a live handle and an all-success backend,
associating a subpicture that was not yet a member succeeds, and a second
associate call for the same subpicture with a different destination
rectangle first performs a full backend deassociation and reference
release of the prior binding and then the new association, leaving the
subpicture in the overlay set exactly once with the second rectangle's
geometry carried by the last association call. -/
theorem claim_C3_reassociate_single_membership (env : Env)
    (s : GstVaapiSurface) (sub : Nat)
    (src1 dst1 src2 dst2 : GstVaapiRectangle)
    (hd : s.display = true) (hid : s.object_id ≠ VA_INVALID_SURFACE)
    (ha : env.associateStatus = VA_STATUS_SUCCESS)
    (hde : ∀ t, env.deassociateStatus t = VA_STATUS_SUCCESS)
    (hnm : sub ∉ s.subpictures.getD []) :
    (gst_vaapi_surface_associate_subpicture env s sub
        (some src1) (some dst1)).ok = true ∧
    (gst_vaapi_surface_associate_subpicture env
        (gst_vaapi_surface_associate_subpicture env s sub
          (some src1) (some dst1)).surface
        sub (some src2) (some dst2)).ok = true ∧
    ((gst_vaapi_surface_associate_subpicture env
        (gst_vaapi_surface_associate_subpicture env s sub
          (some src1) (some dst1)).surface
        sub (some src2) (some dst2)).surface.subpictures.getD []).count sub
      = 1 ∧
    (gst_vaapi_surface_associate_subpicture env
        (gst_vaapi_surface_associate_subpicture env s sub
          (some src1) (some dst1)).surface
        sub (some src2) (some dst2)).trace =
      [Ev.lock, Ev.vaDeassociateSubpicture sub, Ev.unlock, Ev.subUnref sub,
       Ev.lock, Ev.vaAssociateSubpicture sub src2 dst2, Ev.unlock] := by
  have h1 : gst_vaapi_surface_associate_subpicture env s sub
      (some src1) (some dst1) =
      ⟨true, { s with subpictures := some ((s.subpictures.getD []) ++ [sub]) },
        [Ev.lock, Ev.vaAssociateSubpicture sub src1 dst1, Ev.unlock]⟩ := by
    unfold gst_vaapi_surface_associate_subpicture associate_subpicture_backend
    cases hsub : s.subpictures with
    | none =>
      dsimp only
      simp only [Option.getD_some]
      rw [g_ptr_array_remove_fast_not_mem (by simp : sub ∉ ([] : List Nat))]
      simp_all [vaapi_check_status]
    | some subs =>
      have hnm' : sub ∉ subs := by simpa [hsub] using hnm
      dsimp only
      rw [hsub]
      simp only [Option.getD_some]
      rw [g_ptr_array_remove_fast_not_mem hnm']
      simp_all [vaapi_check_status]
  have h2 : gst_vaapi_surface_associate_subpicture env
      { s with subpictures := some ((s.subpictures.getD []) ++ [sub]) } sub
      (some src2) (some dst2) =
      ⟨true, { s with subpictures := some ((s.subpictures.getD []) ++ [sub]) },
        [Ev.lock, Ev.vaDeassociateSubpicture sub, Ev.unlock, Ev.subUnref sub,
         Ev.lock, Ev.vaAssociateSubpicture sub src2 dst2, Ev.unlock]⟩ := by
    unfold gst_vaapi_surface_associate_subpicture associate_subpicture_backend
      deassociate_subpicture_backend
    dsimp only
    simp only [Option.getD_some]
    rw [g_ptr_array_remove_fast_last hnm]
    simp_all [vaapi_check_status]
  rw [h1]
  dsimp only
  rw [h2]
  refine ⟨rfl, rfl, ?_, rfl⟩
  dsimp only
  simp [List.count_append, List.count_eq_zero.mpr hnm]

/-- C3 witness: associating subpicture 5 on a live 50x40 surface with
destination (1,1,2,2) and then with destination (3,3,6,6) leaves a single
membership and replays the prior binding as a deassociate-release followed
by the association with the second rectangle. -/
theorem claim_C3_witness :
    (gst_vaapi_surface_associate_subpicture env0 surf50 5
        (some ⟨0, 0, 4, 4⟩) (some ⟨1, 1, 2, 2⟩)).ok = true ∧
    (gst_vaapi_surface_associate_subpicture env0
        (gst_vaapi_surface_associate_subpicture env0 surf50 5
          (some ⟨0, 0, 4, 4⟩) (some ⟨1, 1, 2, 2⟩)).surface
        5 (some ⟨0, 0, 4, 4⟩) (some ⟨3, 3, 6, 6⟩)).ok = true ∧
    ((gst_vaapi_surface_associate_subpicture env0
        (gst_vaapi_surface_associate_subpicture env0 surf50 5
          (some ⟨0, 0, 4, 4⟩) (some ⟨1, 1, 2, 2⟩)).surface
        5 (some ⟨0, 0, 4, 4⟩) (some ⟨3, 3, 6, 6⟩)).surface.subpictures.getD []).count 5
      = 1 ∧
    (gst_vaapi_surface_associate_subpicture env0
        (gst_vaapi_surface_associate_subpicture env0 surf50 5
          (some ⟨0, 0, 4, 4⟩) (some ⟨1, 1, 2, 2⟩)).surface
        5 (some ⟨0, 0, 4, 4⟩) (some ⟨3, 3, 6, 6⟩)).trace =
      [Ev.lock, Ev.vaDeassociateSubpicture 5, Ev.unlock, Ev.subUnref 5,
       Ev.lock, Ev.vaAssociateSubpicture 5 ⟨0, 0, 4, 4⟩ ⟨3, 3, 6, 6⟩,
       Ev.unlock] :=
  claim_C3_reassociate_single_membership env0 surf50 5
    ⟨0, 0, 4, 4⟩ ⟨1, 1, 2, 2⟩ ⟨0, 0, 4, 4⟩ ⟨3, 3, 6, 6⟩
    (by decide) (by decide) (by decide) (fun _ => rfl) (by decide)
